import Mathlib

/-!
Shallow embedding of the dual-engine speech-recognition core of this
repository (src/src/hooks/useHybridSpeechRecognition.ts): the Vosk (fast)
and Whisper (accurate) result-merge heuristics, the engine-status effect,
the stop/reload controls, and the audio-processor callback that feeds the
fast-path and accurate-path buffers.

Embedding conventions:
- JS strings are modelled as Lean `String`; the transcripts involved are
  ASCII, where JS UTF-16 length, `toLowerCase`, `trim`, `slice`, `includes`,
  `split(' ')`, `join(' ')` and `lastIndexOf` coincide with the List Char
  operations defined below.
- Audio samples are modelled as rationals.  The code only ever compares an
  RMS value `sqrt(sum/len)` against a positive constant `t`, which is
  equivalent to comparing `sum` against `t^2 * len`; the comparisons below
  are stated in that squared form, avoiding square roots.
- `Date.now()` timestamps are integers (milliseconds).
- The JS constants `16000*0.15` and `Math.floor(16000*0.05)` evaluate to
  exactly 2400 and 800 in binary floating point, and the length ratio test
  `clean.length > prev.length * 1.3` agrees with the exact rational test
  `10*clean.length > 13*prev.length` on all relevant (integer) lengths.
- The UI audio-level meter (`setAudioLevel`), a display-only side channel
  computed with `Math.sqrt`, is not modelled; no claim mentions it.
-/

/-- JS `trim`-style whitespace test (ASCII subset). -/
def wsChar (c : Char) : Bool := c == ' ' || c == '\t' || c == '\n' || c == '\r'


/-- Remove leading and trailing whitespace, as JS `String.prototype.trim`. -/
def trimChars (l : List Char) : List Char :=
  ((l.dropWhile wsChar).reverse.dropWhile wsChar).reverse


/-- JS `text.trim()` on a Lean `String`. -/
def trimStr (s : String) : String := String.mk (trimChars s.data)


/-- JS `toLowerCase` (ASCII letters; `Char.toLower` is exactly the ASCII map). -/
def lowerStr (s : String) : String := String.mk (s.data.map Char.toLower)


/-- Does `pat` occur at the head of the second list? (helper for `occursIn`). -/
def leadMatch : List Char → List Char → Bool
  | [], _ => true
  | _ :: _, [] => false
  | a :: as, b :: bs => a == b && leadMatch as bs


/-- JS `haystack.includes(pat)`: `occursIn pat hay` is true iff `pat` occurs
contiguously inside `hay`. -/
def occursIn (pat : List Char) : List Char → Bool
  | [] => pat.isEmpty
  | c :: rest => leadMatch pat (c :: rest) || occursIn pat rest


/-- JS `s.slice(-n)`: the last `n` characters (the whole list if shorter). -/
def sliceLast (l : List Char) (n : Nat) : List Char := l.drop (l.length - n)


/-- JS `s.split(' ')`: split on every single space, keeping empty pieces. -/
def splitSp : List Char → List (List Char)
  | [] => [[]]
  | c :: rest =>
    if c == ' ' then [] :: splitSp rest
    else
      match splitSp rest with
      | [] => [[c]]
      | w :: ws => (c :: w) :: ws


/-- JS `arr.join(' ')` on lists of characters. -/
def joinChars : List (List Char) → List Char
  | [] => []
  | [w] => w
  | w :: ws => w ++ ' ' :: joinChars ws


/-- JS `split(' ')` at the `String` level. -/
def splitSpS (s : String) : List String := (splitSp s.data).map String.mk


/-- JS `join(' ')` at the `String` level. -/
def joinSp (ws : List String) : String := String.mk (joinChars (ws.map String.data))


def emptyString : String := ""


def spaceString : String := " "


/-- JS `arr.lastIndexOf(x)` on an array of strings: last occurrence index,
`-1` when absent. -/
def lastIndexOfL (l : List String) (x : String) : ℤ :=
  match l.reverse.findIdx? (fun w => w == x) with
  | none => -1
  | some i => (l.length : ℤ) - 1 - (i : ℤ)


/-- The `setText` updater run on a Vosk (Fast-engine) Final result
(useHybridSpeechRecognition.ts, Vosk worker 'result' branch):
empty previous text is replaced; a result more than 1.3 times longer than
the previous text replaces it; a result that contains the last 20
characters of the previous text (case-insensitively) replaces it;
otherwise the result is appended after a space. -/
def mergeVosk (prev clean : String) : String :=
  if prev.data = [] then clean
  else if 13 * prev.data.length < 10 * clean.data.length then clean
  else if occursIn (sliceLast (lowerStr prev).data 20) (lowerStr clean).data then clean
  else prev ++ spaceString ++ clean


/-- Words `prev.toLowerCase().split(' ')` of the Whisper merge. -/
def prevWordsOf (prev : String) : List String := splitSpS (lowerStr prev)


/-- The last word of `clean.toLowerCase().split(' ')` (the array is always
nonempty, so the default is never used). -/
def lastWordOf (clean : String) : String := (splitSpS (lowerStr clean)).getLastD emptyString


/-- Index `prevWords.lastIndexOf(lastWhisperWord)` of the Whisper merge. -/
def overlapIdxOf (prev clean : String) : ℤ :=
  lastIndexOfL (prevWordsOf prev) (lastWordOf clean)


/-- Tail `prevWords.slice(overlapIdx + 1).join(' ')`: the lower-cased trailing
words of the previous text that the Whisper merge re-appends. -/
def whisperTailOf (prev clean : String) : String :=
  joinSp ((prevWordsOf prev).drop (overlapIdxOf prev clean + 1).toNat)


/-- The `setText` updater run on a Whisper (Accurate-engine) Final result
(useHybridSpeechRecognition.ts, Whisper worker 'result' branch):
find the last occurrence of the Whisper result's last word among the
lower-cased words of the previous text; if found and not in last position,
keep the (lower-cased) words after it behind the Whisper result; otherwise
the Whisper result replaces the text entirely. -/
def mergeWhisper (prev clean : String) : String :=
  if prev.data = [] then clean
  else if overlapIdxOf prev clean ≠ -1 ∧
          overlapIdxOf prev clean < ((prevWordsOf prev).length : ℤ) - 1 then
    clean ++ spaceString ++ whisperTailOf prev clean
  else clean


def strNice1 : String := "the weather is nice"
def strNice2 : String := "is nice today"
def strNiceExpected : String := "the weather is nice today"
def strNiceDup : String := "the weather is nice is nice today"
def strWhether : String := "the whether is nice today"
def strWhetherCaps : String := "the whether is nice TODAY"
def strHello : String := "hello"
def strFriendPrev : String := "hello there my good friend"
def strFriendNew : String := "there my good friend ok"
def bothFailedMsg : String := "Both speech engines failed to load"
def voskErrPre : String := "Vosk Error: "

example : mergeVosk strFriendPrev strFriendNew = strFriendNew := by decide
example : mergeWhisper strWhetherCaps strNice1 = strNiceExpected := by decide


/-- Per-engine lifecycle state ('loading' | 'ready' | 'error'). -/
inductive EngineState
  | loading
  | ready
  | errored
  deriving DecidableEq, Repr


/-- The `engineStatus` pair `{ vosk, whisper }`. -/
structure EnginePair where
  vosk : EngineState
  whisper : EngineState
  deriving DecidableEq, Repr


/-- Derived overall readiness (spec section 4.6), expressed with the exact
branch conditions of the engine-status `useEffect` in the hook:
`bothReady`, `atLeastOneReady && bothDone`, `bothDone && !atLeastOneReady`. -/
inductive Overall
  | loading
  | ready
  | degraded
  | failed
  deriving DecidableEq, Repr


def deriveOverall (es : EnginePair) : Overall :=
  if es.vosk = EngineState.ready ∧ es.whisper = EngineState.ready then Overall.ready
  else if (es.vosk = EngineState.ready ∨ es.whisper = EngineState.ready) ∧
          (es.vosk ≠ EngineState.loading ∧ es.whisper ≠ EngineState.loading) then Overall.degraded
  else if es.vosk ≠ EngineState.loading ∧ es.whisper ≠ EngineState.loading then Overall.failed
  else Overall.loading


/-- The mutable state of one hook instance: React state (text, interimText,
isListening, error, isModelLoading, engineStatus, retryCount), refs
(lastVoskResult, whisper buffer, lastSpeechTime, pending silence timeout)
and the `startListening` closure variables of the audio processor
(voskBuffer, voskBufferLength, lastVoskSendTime).  Dispatch lists record the
windows posted to each worker ('transcribe' messages); for the fast path the
dispatch timestamp is recorded too. -/
@[ext] structure HybridState where
  text : String
  interimText : String
  isListening : Bool
  error : Option String
  isModelLoading : Bool
  engineStatus : EnginePair
  lastVoskResult : String
  retryCount : Nat
  whisperBuf : List (List ℚ)
  whisperLen : Nat
  lastSpeechTime : ℤ
  silencePending : Bool
  voskBuf : List (List ℚ)
  voskLen : Nat
  lastVoskSend : ℤ
  voskDispatches : List (ℤ × List ℚ)
  whisperDispatches : List (List ℚ)
  voskWorkerPresent : Bool
  whisperWorkerPresent : Bool
  deriving DecidableEq


/-- The engine-status `useEffect`: on a status change, set
`isModelLoading`/`error` according to the bothReady / degraded / bothFailed
branches.  (The degraded branch only logs; it does not touch `error`.) -/
def applyStatusEffect (s : HybridState) : HybridState :=
  if s.engineStatus.vosk = EngineState.ready ∧ s.engineStatus.whisper = EngineState.ready then
    {s with isModelLoading := false, error := none}
  else if (s.engineStatus.vosk = EngineState.ready ∨ s.engineStatus.whisper = EngineState.ready) ∧
          (s.engineStatus.vosk ≠ EngineState.loading ∧ s.engineStatus.whisper ≠ EngineState.loading) then
    {s with isModelLoading := false}
  else if (s.engineStatus.vosk ≠ EngineState.loading ∧ s.engineStatus.whisper ≠ EngineState.loading) ∧
          ¬(s.engineStatus.vosk = EngineState.ready ∨ s.engineStatus.whisper = EngineState.ready) then
    {s with isModelLoading := false, error := some bothFailedMsg}
  else s


/-- Messages delivered by the Vosk worker (`interim` models type 'partial'). -/
inductive VoskMsg
  | ready
  | interim (t : String)
  | result (t : String)
  | errorMsg (e : String)
  | debug (m : String)
  deriving DecidableEq


/-- Messages delivered by the Whisper worker (it produces no partials). -/
inductive WhisperMsg
  | ready
  | result (t : String)
  | errorMsg (e : String)
  | debug (m : String)
  deriving DecidableEq


/-- Handler `voskWorkerRef.current.onmessage`.  Note: no branch consults
`isListening`; results are processed even after `stopListening`. -/
def handleVoskMessage (m : VoskMsg) (s : HybridState) : HybridState :=
  match m with
  | VoskMsg.ready =>
      applyStatusEffect {s with engineStatus := {s.engineStatus with vosk := EngineState.ready}}
  | VoskMsg.interim t =>
      if t.data ≠ [] then
        if 0 < (trimStr t).data.length then {s with interimText := trimStr t} else s
      else s
  | VoskMsg.result t =>
      if t.data ≠ [] then
        if 0 < (trimStr t).data.length then
          {s with lastVoskResult := trimStr t,
                  text := mergeVosk s.text (trimStr t),
                  interimText := emptyString}
        else s
      else s
  | VoskMsg.errorMsg e =>
      applyStatusEffect {s with engineStatus := {s.engineStatus with vosk := EngineState.errored},
                                error := some (voskErrPre ++ e)}
  | VoskMsg.debug _ => s


/-- Handler `whisperWorkerRef.current.onmessage`.  The 'error' branch marks the
engine errored but deliberately does not set the user-facing error
("Vosk can still work"); the 'result' branch does not clear interimText. -/
def handleWhisperMessage (m : WhisperMsg) (s : HybridState) : HybridState :=
  match m with
  | WhisperMsg.ready =>
      applyStatusEffect {s with engineStatus := {s.engineStatus with whisper := EngineState.ready}}
  | WhisperMsg.result t =>
      if t.data ≠ [] then
        if 0 < (trimStr t).data.length then {s with text := mergeWhisper s.text (trimStr t)} else s
      else s
  | WhisperMsg.errorMsg _ =>
      applyStatusEffect {s with engineStatus := {s.engineStatus with whisper := EngineState.errored}}
  | WhisperMsg.debug _ => s


/-- Control `stopListening`: disconnect audio (no more frames), clear the Whisper
buffer and any pending silence timeout.  It does not touch `text`,
`interimText`, or the worker message handlers. -/
def stopListening (s : HybridState) : HybridState :=
  {s with isListening := false,
          whisperBuf := [],
          whisperLen := 0,
          silencePending := false}


/-- Control `reloadModel`: stop listening, then restart both engines from
'loading', clearing the error and bumping `retryCount` (which re-creates
the workers).  `text`/`interimText` are not reset. -/
def reloadModel (s : HybridState) : HybridState :=
  {stopListening s with
     isModelLoading := true,
     error := none,
     engineStatus := EnginePair.mk EngineState.loading EngineState.loading,
     retryCount := s.retryCount + 1}


/-- JS loop `sum += input[i]*input[i]` over a frame. -/
def sumSq (l : List ℚ) : ℚ := l.foldl (fun a x => a + x * x) 0


/-- Test `rms > SPEECH_THRESHOLD` with `SPEECH_THRESHOLD = 0.001`:
`sqrt(sum/len) > 1/1000  ↔  1000000*sum > len` (false for an empty frame,
matching `NaN > t` in JS). -/
def hasSpeechB (input : List ℚ) : Bool :=
  decide ((input.length : ℚ) < 1000000 * sumSq input)


/-- The fast-path send gate `rms > 0.0002`:
`sqrt(sum/len) > 2/10000  ↔  25000000*sum > len`. -/
def voskGateB (input : List ℚ) : Bool :=
  decide ((input.length : ℚ) < 25000000 * sumSq input)


/-- The overlap-retention loop run after a fast-path dispatch: walk the
chunk list with the running `tempOffset`, keeping whole chunks once the
offset is spent and slicing the chunk the offset lands in. -/
def trimTo : List (List ℚ) → Nat → List (List ℚ)
  | [], _ => []
  | b :: rest, k =>
    if k = 0 then b :: trimTo rest 0
    else if k < b.length then b.drop k :: trimTo rest (k - b.length)
    else trimTo rest (k - b.length)


/-- Computed `newLength`: total sample count of the retained chunks. -/
def sumLens (l : List (List ℚ)) : Nat := (l.map List.length).sum


/-- The 30-second-cap trim loop (`while` with `shift()`): drop chunks from
the front until at least `target` samples have been removed; returns the
remaining chunks and the number of samples removed. -/
def shiftWhile : List (List ℚ) → Nat → Nat → List (List ℚ) × Nat
  | [], trimmed, _ => ([], trimmed)
  | b :: rest, trimmed, target =>
    if trimmed < target then shiftWhile rest (trimmed + b.length) target
    else (b :: rest, trimmed)


/-- Speech detection at the head of `onaudioprocess`: on speech, update
`lastSpeechTimeRef` and clear any pending silence timeout. -/
def speechUpdate (now : ℤ) (input : List ℚ) (s : HybridState) : HybridState :=
  if hasSpeechB input then {s with lastSpeechTime := now, silencePending := false} else s


/-- Buffer the frame for both paths (`voskBuffer.push`, `whisperBufferRef.push`). -/
def pushBuffers (input : List ℚ) (s : HybridState) : HybridState :=
  {s with voskBuf := s.voskBuf ++ [input],
          voskLen := s.voskLen + input.length,
          whisperBuf := s.whisperBuf ++ [input],
          whisperLen := s.whisperLen + input.length}


/-- The fast-path dispatch: when at least 2400 samples (150 ms) are
buffered, at least 100 ms have passed since the last send, the current
frame's RMS exceeds 0.0002 and the worker exists, post the concatenated
buffer and retain the trailing 800 samples (50 ms) of overlap. -/
def voskDispatchStep (now : ℤ) (input : List ℚ) (s : HybridState) : HybridState :=
  if (2400 ≤ s.voskLen ∧ 100 ≤ now - s.lastVoskSend) ∧
     voskGateB input = true ∧ s.voskWorkerPresent = true then
    if 800 < s.voskLen then
      {s with voskDispatches := s.voskDispatches ++ [(now, s.voskBuf.flatten)],
              lastVoskSend := now,
              voskBuf := trimTo s.voskBuf (s.voskLen - 800),
              voskLen := sumLens (trimTo s.voskBuf (s.voskLen - 800))}
    else
      {s with voskDispatches := s.voskDispatches ++ [(now, s.voskBuf.flatten)],
              lastVoskSend := now,
              voskBuf := [],
              voskLen := 0}
  else s


/-- Arming of the Whisper silence timeout: on a silent frame, with more
than 2 s buffered and more than 1.5 s since `lastSpeechTimeRef`, and no
timeout already pending, schedule `sendToWhisper`. -/
def whisperScheduleStep (now : ℤ) (input : List ℚ) (s : HybridState) : HybridState :=
  if hasSpeechB input = false ∧ 32000 < s.whisperLen ∧
     1500 < now - s.lastSpeechTime ∧ s.silencePending = false then
    {s with silencePending := true}
  else s


/-- The 30-second cap on the Whisper buffer. -/
def whisperCapStep (s : HybridState) : HybridState :=
  if 480000 < s.whisperLen then
    {s with whisperBuf := (shiftWhile s.whisperBuf 0 (s.whisperLen - 480000)).1,
            whisperLen := s.whisperLen - (shiftWhile s.whisperBuf 0 (s.whisperLen - 480000)).2}
  else s


/-- Handler `processor.onaudioprocess` for one frame at time `now`: while the model
is loading the frame is discarded outright (`if (isModelLoadingRef.current)
return;`); otherwise speech detection, buffering, fast-path dispatch,
silence-timeout arming and the 30 s cap run in source order. -/
def processFrame (now : ℤ) (input : List ℚ) (s : HybridState) : HybridState :=
  if s.isModelLoading then s
  else
    whisperCapStep (whisperScheduleStep now input
      (voskDispatchStep now input (pushBuffers input (speechUpdate now input s))))


/-- Function `sendToWhisper`: refuse without a worker or with under 1 s of audio;
refuse (keeping the buffer) when the Whisper engine is not ready; otherwise
post the concatenated buffer and clear it. -/
def sendToWhisper (s : HybridState) : HybridState :=
  if s.whisperWorkerPresent = false ∨ s.whisperLen < 16000 then s
  else if s.engineStatus.whisper ≠ EngineState.ready then s
  else
    {s with whisperDispatches := s.whisperDispatches ++ [s.whisperBuf.flatten],
            whisperBuf := [],
            whisperLen := 0}


/-- The silence timeout firing 500 ms after being armed: run
`sendToWhisper` and clear the pending flag. -/
def timerFire (s : HybridState) : HybridState :=
  if s.silencePending then {sendToWhisper s with silencePending := false} else s


/-- An event of a capture session: an audio frame arriving at time `now`,
or the pending silence timeout firing. -/
inductive AudioEvent
  | frame (now : ℤ) (input : List ℚ)
  | timer
  deriving DecidableEq


def stepEvent (s : HybridState) (e : AudioEvent) : HybridState :=
  match e with
  | AudioEvent.frame n i => processFrame n i s
  | AudioEvent.timer => timerFire s


def runEvents (evs : List AudioEvent) (s : HybridState) : HybridState :=
  evs.foldl stepEvent s


/-- The hook's initial state: empty display state, both engines loading,
empty buffers, `lastSpeechTimeRef = useRef(0)`, `lastVoskSendTime = 0`. -/
def initialState : HybridState where
  text := ""
  interimText := ""
  isListening := false
  error := none
  isModelLoading := true
  engineStatus := EnginePair.mk EngineState.loading EngineState.loading
  lastVoskResult := ""
  retryCount := 0
  whisperBuf := []
  whisperLen := 0
  lastSpeechTime := 0
  silencePending := false
  voskBuf := []
  voskLen := 0
  lastVoskSend := 0
  voskDispatches := []
  whisperDispatches := []
  voskWorkerPresent := true
  whisperWorkerPresent := true


/-- The operational state after both workers reported 'ready' and
`startListening` succeeded. -/
def bothReadyState : HybridState :=
  applyStatusEffect {initialState with
    engineStatus := EnginePair.mk EngineState.ready EngineState.ready,
    isListening := true}


def zeroFrame : List ℚ := List.replicate 2048 0


def oneFrame : List ℚ := List.replicate 2048 1


/-- A sequence of `k` all-zero frames at 100 ms intervals starting at t=2000. -/
def silentFrames (k : Nat) : List AudioEvent :=
  (List.range k).map (fun i => AudioEvent.frame (2000 + 100 * (i : ℤ)) zeroFrame)


/-- The state reached after `k` silent frames: both buffers hold the frames,
nothing was dispatched, and the silence timeout is pending as soon as the
buffered audio exceeds 2 s (k ≥ 16), even though no speech ever occurred. -/
def silentState (k : Nat) : HybridState :=
  {bothReadyState with
     voskBuf := List.replicate k zeroFrame,
     voskLen := 2048 * k,
     whisperBuf := List.replicate k zeroFrame,
     whisperLen := 2048 * k,
     silencePending := decide (16 ≤ k)}


/-- Classifier for the C3 scenario: an event is "silent" when it is a frame
whose RMS does not exceed the speech threshold, or the timer firing. -/
def silentEventB : AudioEvent → Bool
  | AudioEvent.frame _ input => !hasSpeechB input
  | AudioEvent.timer => true


/-- Sixteen silent frames (crossing the 2 s minimum) followed by the armed
silence timeout firing. -/
def silentRun : List AudioEvent := silentFrames 16 ++ [AudioEvent.timer]


/-- A state with ~1.94 s of silence already buffered on the accurate path. -/
def armedState : HybridState :=
  {bothReadyState with whisperBuf := [List.replicate 31000 0], whisperLen := 31000}


/-- A state whose fast accumulator already holds a full 150 ms window. -/
def preloadedState : HybridState :=
  {bothReadyState with voskBuf := [List.replicate 2400 0], voskLen := 2400}


/-- Well-formedness relation between two consecutive recorded fast-path
dispatches `(t, w)` and `(t', w')`: at least the 100 ms minimum interval
separates them, the earlier window holds at least the 800-sample overlap,
and the later window starts with exactly the earlier window's trailing
800 samples. -/
def consecOk (p q : ℤ × List ℚ) : Prop :=
  100 ≤ q.1 - p.1 ∧ 800 ≤ p.2.length ∧ q.2.take 800 = p.2.drop (p.2.length - 800)


/-- Fast-path invariant: the tracked length matches the buffer, all
recorded dispatches are pairwise `consecOk`, and after any dispatch the
buffer starts with the trailing 800 samples of the last dispatched window
(which is what the next window will begin with). -/
def VoskInv (s : HybridState) : Prop :=
  s.voskLen = s.voskBuf.flatten.length ∧
  List.Chain' consecOk s.voskDispatches ∧
  ∀ p : ℤ × List ℚ, s.voskDispatches.getLast? = some p →
    s.lastVoskSend = p.1 ∧ 800 ≤ p.2.length ∧ 800 ≤ s.voskBuf.flatten.length ∧
      s.voskBuf.flatten.take 800 = p.2.drop (p.2.length - 800)


/-- An event that is a frame whose RMS exceeds the speech threshold. -/
def speechEventB : AudioEvent → Bool
  | AudioEvent.frame _ input => hasSpeechB input
  | AudioEvent.timer => false


/-- A 300-sample frame of full-scale speech (RMS 1, far above threshold). -/
def speechFrame : List ℚ := List.replicate 300 1


/-- Fourteen consecutive speech frames at 100 ms spacing; the fast path
dispatches twice (at 2400 buffered samples and again once the retained
800-sample overlap has grown back past 2400). -/
def demoRun : List AudioEvent :=
  (List.range 14).map (fun k => AudioEvent.frame (1000 + 100 * (k : ℤ)) speechFrame)


/-- No ASCII uppercase letter occurs in the string. -/
def noUpperStr (s : String) : Prop :=
  ∀ c ∈ s.data, ¬(65 ≤ c.toNat ∧ c.toNat ≤ 90)


lemma foldl_sq_replicate_zero (n : Nat) (a : ℚ) :
    List.foldl (fun acc x => acc + x * x) a (List.replicate n 0) = a := by
  induction n generalizing a with
  | zero => rfl
  | succ k ih => simp [List.replicate_succ, ih]


lemma foldl_sq_replicate_one (n : Nat) (a : ℚ) :
    List.foldl (fun acc x => acc + x * x) a (List.replicate n 1) = a + n := by
  induction n generalizing a with
  | zero => simp
  | succ k ih =>
      rw [List.replicate_succ, List.foldl_cons, ih]
      push_cast
      ring


lemma sumSq_replicate_zero (n : Nat) : sumSq (List.replicate n 0) = 0 :=
  foldl_sq_replicate_zero n 0


lemma sumSq_replicate_one (n : Nat) : sumSq (List.replicate n 1) = n := by
  have h := foldl_sq_replicate_one n 0
  rw [zero_add] at h
  exact h


lemma hasSpeechB_replicate_zero (n : Nat) : hasSpeechB (List.replicate n 0) = false := by
  simp [hasSpeechB, sumSq_replicate_zero]


lemma voskGateB_replicate_zero (n : Nat) : voskGateB (List.replicate n 0) = false := by
  simp [voskGateB, sumSq_replicate_zero]


lemma hasSpeechB_oneFrame : hasSpeechB oneFrame = true := by
  unfold hasSpeechB oneFrame
  rw [sumSq_replicate_one, List.length_replicate, decide_eq_true_eq]
  norm_num


lemma voskGateB_oneFrame : voskGateB oneFrame = true := by
  unfold voskGateB oneFrame
  rw [sumSq_replicate_one, List.length_replicate, decide_eq_true_eq]
  norm_num


lemma hasSpeechB_zeroFrame : hasSpeechB zeroFrame = false := hasSpeechB_replicate_zero 2048


lemma voskGateB_zeroFrame : voskGateB zeroFrame = false := voskGateB_replicate_zero 2048


/-- One `onaudioprocess` step on an all-zero (silent) frame: the frame is
buffered on both paths, no fast-path dispatch happens, and the silence
timeout is armed exactly when the arming conditions hold. -/
lemma processFrame_silent (now : ℤ) (n : Nat) (s : HybridState)
    (hload : s.isModelLoading = false) (hcap : s.whisperLen + n ≤ 480000) :
    processFrame now (List.replicate n 0) s =
      if 32000 < s.whisperLen + n ∧ 1500 < now - s.lastSpeechTime ∧ s.silencePending = false then
        {s with voskBuf := s.voskBuf ++ [List.replicate n 0], voskLen := s.voskLen + n,
                whisperBuf := s.whisperBuf ++ [List.replicate n 0], whisperLen := s.whisperLen + n,
                silencePending := true}
      else
        {s with voskBuf := s.voskBuf ++ [List.replicate n 0], voskLen := s.voskLen + n,
                whisperBuf := s.whisperBuf ++ [List.replicate n 0], whisperLen := s.whisperLen + n} := by
  have hz := hasSpeechB_replicate_zero n
  have hg := voskGateB_replicate_zero n
  unfold processFrame speechUpdate pushBuffers voskDispatchStep whisperScheduleStep whisperCapStep
  simp only [hload, hz, hg, Bool.false_eq_true, if_false, false_and, and_false,
             eq_self_iff_true, true_and, List.length_replicate]
  by_cases hcond : 32000 < s.whisperLen + n ∧ 1500 < now - s.lastSpeechTime ∧ s.silencePending = false
  · simp only [if_pos hcond]
    split
    · next hlt => exfalso; omega
    · rfl
  · simp only [if_neg hcond]
    split
    · next hlt => exfalso; omega
    · rfl


lemma runEvents_append (a b : List AudioEvent) (s : HybridState) :
    runEvents (a ++ b) s = runEvents b (runEvents a s) := by
  simp [runEvents]


lemma runEvents_single (e : AudioEvent) (s : HybridState) :
    runEvents [e] s = stepEvent s e := rfl


lemma runEvents_silentFrames (k : Nat) (hk : k ≤ 100) :
    runEvents (silentFrames k) bothReadyState = silentState k := by
  induction k with
  | zero => rfl
  | succ j ih =>
      have hj : j ≤ 100 := by omega
      have hsplit : silentFrames (j + 1) =
          silentFrames j ++ [AudioEvent.frame (2000 + 100 * (j : ℤ)) zeroFrame] := by
        simp [silentFrames, List.range_succ]
      rw [hsplit, runEvents_append, ih hj, runEvents_single]
      show processFrame (2000 + 100 * (j : ℤ)) zeroFrame (silentState j) = silentState (j + 1)
      have hload : (silentState j).isModelLoading = false := rfl
      have hcap : (silentState j).whisperLen + 2048 ≤ 480000 := by
        show 2048 * j + 2048 ≤ 480000
        omega
      have hstep := processFrame_silent (2000 + 100 * (j : ℤ)) 2048 (silentState j) hload hcap
      rw [show zeroFrame = List.replicate 2048 (0 : ℚ) from rfl, hstep]
      have hw : (silentState j).whisperLen = 2048 * j := rfl
      have hv : (silentState j).voskLen = 2048 * j := rfl
      have hl : (silentState j).lastSpeechTime = 0 := rfl
      have hp : (silentState j).silencePending = decide (16 ≤ j) := rfl
      have hvb : (silentState j).voskBuf = List.replicate j zeroFrame := rfl
      have hwb : (silentState j).whisperBuf = List.replicate j zeroFrame := rfl
      rw [hw, hv, hl, hp, hvb, hwb]
      have hfr : List.replicate j zeroFrame ++ [List.replicate 2048 (0 : ℚ)] =
          List.replicate (j + 1) zeroFrame := by
        rw [show List.replicate 2048 (0 : ℚ) = zeroFrame from rfl]
        exact (List.replicate_succ' j zeroFrame).symm
      by_cases h16 : 16 ≤ j
      · rw [if_neg (by rintro ⟨-, -, hc⟩; rw [decide_eq_true h16] at hc; simp at hc)]
        apply HybridState.ext <;>
          first
          | rfl
          | exact hfr
          | (show 2048 * j + 2048 = 2048 * (j + 1); ring)
          | (show decide (16 ≤ j) = decide (16 ≤ j + 1); exact decide_eq_decide.mpr (by omega))
      · by_cases h15 : j = 15
        · subst h15
          rw [if_pos ⟨by norm_num, by norm_num, by norm_num⟩]
          apply HybridState.ext <;> first | rfl | exact hfr
        · rw [if_neg (by rintro ⟨h1, -, -⟩; omega)]
          apply HybridState.ext <;>
            first
            | rfl
            | exact hfr
            | (show 2048 * j + 2048 = 2048 * (j + 1); ring)
            | (show decide (16 ≤ j) = decide (16 ≤ j + 1); exact decide_eq_decide.mpr (by omega))


@[simp] lemma speechUpdate_whisperLen (now : ℤ) (input : List ℚ) (s : HybridState) :
    (speechUpdate now input s).whisperLen = s.whisperLen := by
  unfold speechUpdate; split <;> rfl


@[simp] lemma speechUpdate_whisperBuf (now : ℤ) (input : List ℚ) (s : HybridState) :
    (speechUpdate now input s).whisperBuf = s.whisperBuf := by
  unfold speechUpdate; split <;> rfl


@[simp] lemma speechUpdate_voskBuf (now : ℤ) (input : List ℚ) (s : HybridState) :
    (speechUpdate now input s).voskBuf = s.voskBuf := by
  unfold speechUpdate; split <;> rfl


@[simp] lemma speechUpdate_voskLen (now : ℤ) (input : List ℚ) (s : HybridState) :
    (speechUpdate now input s).voskLen = s.voskLen := by
  unfold speechUpdate; split <;> rfl


@[simp] lemma speechUpdate_lastVoskSend (now : ℤ) (input : List ℚ) (s : HybridState) :
    (speechUpdate now input s).lastVoskSend = s.lastVoskSend := by
  unfold speechUpdate; split <;> rfl


@[simp] lemma speechUpdate_voskDispatches (now : ℤ) (input : List ℚ) (s : HybridState) :
    (speechUpdate now input s).voskDispatches = s.voskDispatches := by
  unfold speechUpdate; split <;> rfl


@[simp] lemma speechUpdate_voskWorkerPresent (now : ℤ) (input : List ℚ) (s : HybridState) :
    (speechUpdate now input s).voskWorkerPresent = s.voskWorkerPresent := by
  unfold speechUpdate; split <;> rfl


@[simp] lemma voskDispatchStep_whisperLen (now : ℤ) (input : List ℚ) (s : HybridState) :
    (voskDispatchStep now input s).whisperLen = s.whisperLen := by
  unfold voskDispatchStep
  split
  · split <;> rfl
  · rfl


@[simp] lemma voskDispatchStep_whisperBuf (now : ℤ) (input : List ℚ) (s : HybridState) :
    (voskDispatchStep now input s).whisperBuf = s.whisperBuf := by
  unfold voskDispatchStep
  split
  · split <;> rfl
  · rfl


@[simp] lemma voskDispatchStep_lastSpeechTime (now : ℤ) (input : List ℚ) (s : HybridState) :
    (voskDispatchStep now input s).lastSpeechTime = s.lastSpeechTime := by
  unfold voskDispatchStep
  split
  · split <;> rfl
  · rfl


@[simp] lemma voskDispatchStep_silencePending (now : ℤ) (input : List ℚ) (s : HybridState) :
    (voskDispatchStep now input s).silencePending = s.silencePending := by
  unfold voskDispatchStep
  split
  · split <;> rfl
  · rfl


@[simp] lemma whisperScheduleStep_voskBuf (now : ℤ) (input : List ℚ) (s : HybridState) :
    (whisperScheduleStep now input s).voskBuf = s.voskBuf := by
  unfold whisperScheduleStep; split <;> rfl


@[simp] lemma whisperScheduleStep_voskLen (now : ℤ) (input : List ℚ) (s : HybridState) :
    (whisperScheduleStep now input s).voskLen = s.voskLen := by
  unfold whisperScheduleStep; split <;> rfl


@[simp] lemma whisperScheduleStep_lastVoskSend (now : ℤ) (input : List ℚ) (s : HybridState) :
    (whisperScheduleStep now input s).lastVoskSend = s.lastVoskSend := by
  unfold whisperScheduleStep; split <;> rfl


@[simp] lemma whisperScheduleStep_voskDispatches (now : ℤ) (input : List ℚ) (s : HybridState) :
    (whisperScheduleStep now input s).voskDispatches = s.voskDispatches := by
  unfold whisperScheduleStep; split <;> rfl


@[simp] lemma whisperCapStep_voskBuf (s : HybridState) :
    (whisperCapStep s).voskBuf = s.voskBuf := by
  unfold whisperCapStep; split <;> rfl


@[simp] lemma whisperCapStep_voskLen (s : HybridState) :
    (whisperCapStep s).voskLen = s.voskLen := by
  unfold whisperCapStep; split <;> rfl


@[simp] lemma whisperCapStep_lastVoskSend (s : HybridState) :
    (whisperCapStep s).lastVoskSend = s.lastVoskSend := by
  unfold whisperCapStep; split <;> rfl


@[simp] lemma whisperCapStep_voskDispatches (s : HybridState) :
    (whisperCapStep s).voskDispatches = s.voskDispatches := by
  unfold whisperCapStep; split <;> rfl


@[simp] lemma whisperCapStep_silencePending (s : HybridState) :
    (whisperCapStep s).silencePending = s.silencePending := by
  unfold whisperCapStep; split <;> rfl


@[simp] lemma timerFire_voskBuf (s : HybridState) :
    (timerFire s).voskBuf = s.voskBuf := by
  unfold timerFire sendToWhisper
  split
  · split
    · rfl
    · split <;> rfl
  · rfl


@[simp] lemma timerFire_voskLen (s : HybridState) :
    (timerFire s).voskLen = s.voskLen := by
  unfold timerFire sendToWhisper
  split
  · split
    · rfl
    · split <;> rfl
  · rfl


@[simp] lemma timerFire_lastVoskSend (s : HybridState) :
    (timerFire s).lastVoskSend = s.lastVoskSend := by
  unfold timerFire sendToWhisper
  split
  · split
    · rfl
    · split <;> rfl
  · rfl


@[simp] lemma timerFire_voskDispatches (s : HybridState) :
    (timerFire s).voskDispatches = s.voskDispatches := by
  unfold timerFire sendToWhisper
  split
  · split
    · rfl
    · split <;> rfl
  · rfl


lemma silentRun_dispatches :
    (runEvents silentRun bothReadyState).whisperDispatches ≠ [] := by
  rw [silentRun, runEvents_append, runEvents_silentFrames 16 (by norm_num), runEvents_single]
  show (timerFire (silentState 16)).whisperDispatches ≠ []
  have h1 : (silentState 16).silencePending = true := rfl
  rw [timerFire, if_pos h1, sendToWhisper]
  rw [if_neg (by rintro (h | h) <;> exact absurd h (by decide))]
  rw [if_neg (by show ¬ (silentState 16).engineStatus.whisper ≠ EngineState.ready; decide)]
  show (silentState 16).whisperDispatches ++ [(silentState 16).whisperBuf.flatten] ≠ []
  simp


@[simp] lemma pushBuffers_whisperLen (input : List ℚ) (s : HybridState) :
    (pushBuffers input s).whisperLen = s.whisperLen + input.length := rfl


@[simp] lemma pushBuffers_whisperBuf (input : List ℚ) (s : HybridState) :
    (pushBuffers input s).whisperBuf = s.whisperBuf ++ [input] := rfl


@[simp] lemma pushBuffers_voskLen (input : List ℚ) (s : HybridState) :
    (pushBuffers input s).voskLen = s.voskLen + input.length := rfl


@[simp] lemma pushBuffers_voskBuf (input : List ℚ) (s : HybridState) :
    (pushBuffers input s).voskBuf = s.voskBuf ++ [input] := rfl


@[simp] lemma pushBuffers_lastSpeechTime (input : List ℚ) (s : HybridState) :
    (pushBuffers input s).lastSpeechTime = s.lastSpeechTime := rfl


@[simp] lemma pushBuffers_silencePending (input : List ℚ) (s : HybridState) :
    (pushBuffers input s).silencePending = s.silencePending := rfl


@[simp] lemma pushBuffers_lastVoskSend (input : List ℚ) (s : HybridState) :
    (pushBuffers input s).lastVoskSend = s.lastVoskSend := rfl


@[simp] lemma pushBuffers_voskDispatches (input : List ℚ) (s : HybridState) :
    (pushBuffers input s).voskDispatches = s.voskDispatches := rfl


@[simp] lemma pushBuffers_voskWorkerPresent (input : List ℚ) (s : HybridState) :
    (pushBuffers input s).voskWorkerPresent = s.voskWorkerPresent := rfl


lemma speechUpdate_silent (now : ℤ) (input : List ℚ) (s : HybridState)
    (h : hasSpeechB input = false) : speechUpdate now input s = s := by
  simp [speechUpdate, h]


/-- C3 (amended): the silence timeout that dispatches the accurate-path
buffer can only be armed by a frame whose RMS is at or below the speech
threshold, with more than 2 s (32000 samples) buffered and more than
1.5 s since `lastSpeechTime` (which starts at 0 and is only ever updated
by speech frames), while the models are loaded — the gate does not require
that speech ever occurred, so silence-only input does get dispatched. -/
theorem c3_accurate_silence_gating (s : HybridState) (now : ℤ) (input : List ℚ)
    (h0 : s.silencePending = false)
    (h1 : (processFrame now input s).silencePending = true) :
    hasSpeechB input = false ∧ 32000 < s.whisperLen + input.length ∧
      1500 < now - s.lastSpeechTime ∧ s.isModelLoading = false := by
  by_cases hload : s.isModelLoading = true
  · rw [processFrame, if_pos hload, h0] at h1
    exact absurd h1 (by decide)
  · have hload2 : s.isModelLoading = false := by
      cases hb : s.isModelLoading
      · rfl
      · exact absurd hb hload
    rw [processFrame, if_neg hload, whisperCapStep_silencePending, whisperScheduleStep] at h1
    split at h1
    · next hC =>
        obtain ⟨hs, hlen, htime, -⟩ := hC
        rw [voskDispatchStep_whisperLen, pushBuffers_whisperLen,
            speechUpdate_silent now input s hs] at hlen
        rw [voskDispatchStep_lastSpeechTime, pushBuffers_lastSpeechTime,
            speechUpdate_silent now input s hs] at htime
        exact ⟨hs, hlen, htime, hload2⟩
    · rw [voskDispatchStep_silencePending, pushBuffers_silencePending, speechUpdate] at h1
      split at h1
      · simp at h1
      · rw [h0] at h1
        exact absurd h1 (by decide)


lemma armedState_arms : (processFrame 2000 zeroFrame armedState).silencePending = true := by
  rw [show zeroFrame = List.replicate 2048 (0 : ℚ) from rfl,
      processFrame_silent 2000 2048 armedState rfl (by show 31000 + 2048 ≤ 480000; omega)]
  rw [if_pos (by refine ⟨?_, ?_, ?_⟩ <;> decide)]


lemma voskDispatchStep_gateFalse (now : ℤ) (input : List ℚ) (s : HybridState)
    (h : voskGateB input = false) : voskDispatchStep now input s = s := by
  simp [voskDispatchStep, h]


/-- C5 (amended): when the fast-path size and interval conditions are met
but the frame is below the dispatch gate, nothing is dispatched and the
accumulator is NOT trimmed: it keeps every buffered sample plus the new
frame (the hybrid hook has no silence-trim branch on the fast path). -/
theorem c5_fast_silence_no_dispatch_no_trim (s : HybridState) (now : ℤ) (input : List ℚ)
    (hload : s.isModelLoading = false)
    (hsize : 2400 ≤ s.voskLen + input.length)
    (hint : 100 ≤ now - s.lastVoskSend)
    (hgate : voskGateB input = false) :
    (processFrame now input s).voskDispatches = s.voskDispatches ∧
      (processFrame now input s).voskBuf = s.voskBuf ++ [input] ∧
      (processFrame now input s).voskLen = s.voskLen + input.length := by
  rw [processFrame, if_neg (by simp [hload])]
  rw [voskDispatchStep_gateFalse now input _ hgate]
  refine ⟨by simp, by simp, by simp⟩


lemma bothReadyState_voskLen : bothReadyState.voskLen = 0 := rfl


theorem c5_witness :
    (processFrame 1000 (List.replicate 2400 0) bothReadyState).voskDispatches =
        bothReadyState.voskDispatches ∧
      (processFrame 1000 (List.replicate 2400 0) bothReadyState).voskBuf =
        bothReadyState.voskBuf ++ [List.replicate 2400 0] ∧
      (processFrame 1000 (List.replicate 2400 0) bothReadyState).voskLen =
        bothReadyState.voskLen + (List.replicate 2400 (0 : ℚ)).length :=
  c5_fast_silence_no_dispatch_no_trim bothReadyState 1000 (List.replicate 2400 0) rfl
    (by rw [List.length_replicate, bothReadyState_voskLen]) (by decide)
    (voskGateB_replicate_zero 2400)


/-- C5 counterexample: with the window-size and interval conditions met and
an all-silent window (aggregate RMS 0), the fast accumulator is not trimmed
to the 800-sample overlap: it grows to 4448 samples. -/
theorem c5_counterexample :
    ¬ ((processFrame 1000 zeroFrame preloadedState).voskDispatches =
          preloadedState.voskDispatches ∧
        (processFrame 1000 zeroFrame preloadedState).voskLen = 800) := by
  rintro ⟨-, hlen⟩
  have hv : (processFrame 1000 zeroFrame preloadedState).voskLen = 4448 := by
    rw [show zeroFrame = List.replicate 2048 (0 : ℚ) from rfl,
        processFrame_silent 1000 2048 preloadedState rfl (by show 0 + 2048 ≤ 480000; omega)]
    rw [if_neg (by decide)]
    rfl
  rw [hv] at hlen
  exact absurd hlen (by decide)


theorem c3_witness :
    hasSpeechB zeroFrame = false ∧
      32000 < armedState.whisperLen + zeroFrame.length ∧
      1500 < 2000 - armedState.lastSpeechTime ∧
      armedState.isModelLoading = false :=
  c3_accurate_silence_gating armedState 2000 zeroFrame rfl armedState_arms


/-- C3 counterexample: a concrete sequence of sixteen frames, none of which
exceeds the speech threshold, followed by the timer firing, makes the
accurate path dispatch its (silence-only) buffer to the Whisper engine. -/
theorem c3_counterexample :
    ¬ (∀ evs : List AudioEvent, (∀ e ∈ evs, silentEventB e = true) →
        (runEvents evs bothReadyState).whisperDispatches = []) := by
  intro h
  refine silentRun_dispatches (h silentRun ?_)
  intro e he
  rw [silentRun] at he
  rcases List.mem_append.mp he with h1 | h1
  · rw [silentFrames] at h1
    rcases List.mem_map.mp h1 with ⟨i, -, rfl⟩
    simp [silentEventB, hasSpeechB_zeroFrame]
  · rw [List.mem_singleton] at h1
    subst h1
    rfl


/-- C9 (amended): a frame arriving while `isModelLoading` is true is
dropped entirely — the handler returns before buffering anything, so the
state (both path buffers included) is unchanged and nothing is dispatched. -/
theorem c9_loading_drops_frames (s : HybridState) (now : ℤ) (input : List ℚ)
    (h : s.isModelLoading = true) : processFrame now input s = s := by
  rw [processFrame, if_pos h]


theorem c9_witness :
    processFrame 1000 (List.replicate 4 0) initialState = initialState :=
  c9_loading_drops_frames initialState 1000 (List.replicate 4 0) rfl


/-- C9 counterexample: while the model is loading, an arriving frame is not
appended to the accurate-path buffer — the claim's "still accumulated"
fails at this concrete frame. -/
theorem c9_counterexample :
    ¬ ((processFrame 1000 (List.replicate 4 0) initialState).whisperBuf =
        initialState.whisperBuf ++ [List.replicate 4 0]) := by
  decide


lemma sumLens_eq (l : List (List ℚ)) : sumLens l = l.flatten.length := by
  rw [sumLens, List.length_flatten]


lemma trimTo_flatten (buf : List (List ℚ)) : ∀ k : Nat,
    (trimTo buf k).flatten = buf.flatten.drop k := by
  induction buf with
  | nil => intro k; simp [trimTo]
  | cons b rest ih =>
      intro k
      rw [trimTo]
      by_cases h0 : k = 0
      · subst h0
        simp [ih]
      · rw [if_neg h0]
        by_cases h1 : k < b.length
        · rw [if_pos h1]
          have hk0 : k - b.length = 0 := by omega
          rw [List.flatten_cons, ih, hk0, List.flatten_cons,
              List.drop_append_eq_append_drop, hk0]
        · rw [if_neg h1]
          rw [ih, List.flatten_cons, List.drop_append_eq_append_drop,
              List.drop_of_length_le (show b.length ≤ k by omega)]
          simp


lemma voskInv_of_fieldsEq (s t : HybridState)
    (hb : t.voskBuf = s.voskBuf) (hl : t.voskLen = s.voskLen)
    (hs : t.lastVoskSend = s.lastVoskSend) (hd : t.voskDispatches = s.voskDispatches)
    (h : VoskInv s) : VoskInv t := by
  obtain ⟨h1, h2, h3⟩ := h
  refine ⟨by rw [hb, hl]; exact h1, by rw [hd]; exact h2, ?_⟩
  intro p hp
  rw [hd] at hp
  obtain ⟨a, b, c, d⟩ := h3 p hp
  exact ⟨by rw [hs]; exact a, b, by rw [hb]; exact c, by rw [hb]; exact d⟩


lemma voskInv_pushBuffers (input : List ℚ) (s : HybridState) (h : VoskInv s) :
    VoskInv (pushBuffers input s) := by
  obtain ⟨hLen, hChain, hLast⟩ := h
  refine ⟨?_, hChain, ?_⟩
  · show s.voskLen + input.length = (s.voskBuf ++ [input]).flatten.length
    rw [List.flatten_append, List.length_append, hLen]
    simp
  · intro p hp
    obtain ⟨h1, h2, h3, h4⟩ := hLast p hp
    refine ⟨h1, h2, ?_, ?_⟩
    · show 800 ≤ (s.voskBuf ++ [input]).flatten.length
      rw [List.flatten_append, List.length_append]
      omega
    · show (s.voskBuf ++ [input]).flatten.take 800 = p.2.drop (p.2.length - 800)
      rw [List.flatten_append, List.take_append_of_le_length h3]
      exact h4


lemma voskInv_voskDispatchStep (now : ℤ) (input : List ℚ) (s : HybridState) (h : VoskInv s) :
    VoskInv (voskDispatchStep now input s) := by
  rw [voskDispatchStep]
  split
  · next hc =>
      obtain ⟨⟨hlen, hint⟩, -, -⟩ := hc
      rw [if_pos (by omega : 800 < s.voskLen)]
      obtain ⟨hLen, hChain, hLast⟩ := h
      refine ⟨sumLens_eq _, ?_, ?_⟩
      · show List.Chain' consecOk (s.voskDispatches ++ [(now, s.voskBuf.flatten)])
        apply List.Chain'.append hChain (List.chain'_singleton _)
        intro x hx y hy
        rw [Option.mem_def] at hx hy
        obtain ⟨hsend, hplen, hblen, htake⟩ := hLast x hx
        have hy2 : y = (now, s.voskBuf.flatten) := by
          have := hy
          simp at this
          exact this.symm
        subst hy2
        exact ⟨by rw [← hsend]; exact hint, hplen, htake⟩
      · intro p hp
        replace hp : (s.voskDispatches ++ [(now, s.voskBuf.flatten)]).getLast? = some p := hp
        rw [List.getLast?_concat] at hp
        have hp2 : p = (now, s.voskBuf.flatten) := by
          injection hp with hp'
          exact hp'.symm
        subst hp2
        have hdlen : ((trimTo s.voskBuf (s.voskLen - 800)).flatten).length = 800 := by
          rw [trimTo_flatten, List.length_drop, ← hLen]
          omega
        refine ⟨rfl, by rw [← hLen]; omega, ?_, ?_⟩
        · show 800 ≤ ((trimTo s.voskBuf (s.voskLen - 800)).flatten).length
          omega
        · show ((trimTo s.voskBuf (s.voskLen - 800)).flatten).take 800 =
            s.voskBuf.flatten.drop (s.voskBuf.flatten.length - 800)
          rw [List.take_of_length_le (by omega), trimTo_flatten, hLen]
  · exact h


lemma voskInv_stepEvent (e : AudioEvent) (s : HybridState) (h : VoskInv s) :
    VoskInv (stepEvent s e) := by
  cases e with
  | frame now input =>
      show VoskInv (processFrame now input s)
      rw [processFrame]
      split
      · exact h
      · have h1 := voskInv_of_fieldsEq s (speechUpdate now input s)
          (speechUpdate_voskBuf now input s) (speechUpdate_voskLen now input s)
          (speechUpdate_lastVoskSend now input s) (speechUpdate_voskDispatches now input s) h
        have h2 := voskInv_pushBuffers input _ h1
        have h3 := voskInv_voskDispatchStep now input _ h2
        have h4 := voskInv_of_fieldsEq _ _
          (whisperScheduleStep_voskBuf now input _) (whisperScheduleStep_voskLen now input _)
          (whisperScheduleStep_lastVoskSend now input _) (whisperScheduleStep_voskDispatches now input _) h3
        exact voskInv_of_fieldsEq _ _
          (whisperCapStep_voskBuf _) (whisperCapStep_voskLen _)
          (whisperCapStep_lastVoskSend _) (whisperCapStep_voskDispatches _) h4
  | timer =>
      exact voskInv_of_fieldsEq _ _
        (timerFire_voskBuf s) (timerFire_voskLen s)
        (timerFire_lastVoskSend s) (timerFire_voskDispatches s) h


lemma voskInv_runEvents (evs : List AudioEvent) (s : HybridState) (h : VoskInv s) :
    VoskInv (runEvents evs s) := by
  induction evs generalizing s with
  | nil => exact h
  | cons e rest ih => exact ih _ (voskInv_stepEvent e s h)


lemma voskInv_bothReady : VoskInv bothReadyState := by
  refine ⟨rfl, ?_, ?_⟩
  · show List.Chain' consecOk []
    simp
  · intro p hp
    rw [show bothReadyState.voskDispatches = [] from rfl] at hp
    simp at hp


/-- C6: over any run of frames continuously above the speech threshold
(starting from the ready state), consecutive fast-path dispatches are at
least 100 ms apart, and each dispatched window after the first begins with
exactly the trailing 800 samples (50 ms) of the previously dispatched
window. -/
theorem c6_fast_cadence_and_overlap (evs : List AudioEvent)
    (h : ∀ e ∈ evs, speechEventB e = true) :
    List.Chain' consecOk (runEvents evs bothReadyState).voskDispatches :=
  (voskInv_runEvents evs bothReadyState voskInv_bothReady).2.1


lemma hasSpeechB_speechFrame : hasSpeechB speechFrame = true := by
  unfold hasSpeechB speechFrame
  rw [sumSq_replicate_one, List.length_replicate, decide_eq_true_eq]
  norm_num


set_option maxRecDepth 8000 in
theorem c6_witness :
    List.Chain' consecOk (runEvents demoRun bothReadyState).voskDispatches :=
  c6_fast_cadence_and_overlap demoRun (by
    intro e he
    rw [demoRun] at he
    rcases List.mem_map.mp he with ⟨i, -, rfl⟩
    exact hasSpeechB_speechFrame)


/-- C1 counterexample: the spec's overlap-absorption example fails on the
code — after Fast Finals "the weather is nice" and "is nice today" the
committed text is NOT "the weather is nice today". -/
theorem c1_counterexample :
    ¬ ((handleVoskMessage (VoskMsg.result strNice2)
          (handleVoskMessage (VoskMsg.result strNice1) bothReadyState)).text =
        strNiceExpected) := by
  decide


/-- C1 (amended): the Fast-Final merge absorbs an overlap only when the new
Final contains the previous text's last 20 characters (case-insensitively),
as in the `strFriendPrev`/`strFriendNew` pair; otherwise it appends after a
space, so the spec's example duplicates "is nice": the committed text
becomes "the weather is nice is nice today" (and the interim caption is
cleared). -/
theorem c1_fast_final_merge :
    (handleVoskMessage (VoskMsg.result strNice2)
        (handleVoskMessage (VoskMsg.result strNice1) bothReadyState)).text = strNiceDup ∧
      (handleVoskMessage (VoskMsg.result strNice2)
        (handleVoskMessage (VoskMsg.result strNice1) bothReadyState)).interimText = emptyString ∧
      mergeVosk strFriendPrev strFriendNew = strFriendNew := by
  refine ⟨by decide, by decide, by decide⟩


/-- C2: an Accurate (Whisper) Final "the weather is nice" arriving on
committed text "the whether is nice today" replaces the erroneous prefix
and preserves the trailing word "today". -/
theorem c2_accurate_override :
    (handleWhisperMessage (WhisperMsg.result strNice1)
        {bothReadyState with text := strWhether}).text = strNiceExpected := by
  decide


/-- C4 counterexample: after `stopListening`, a late Vosk result still
mutates the display state — text changes from empty to "hello". -/
theorem c4_counterexample :
    ¬ ((handleVoskMessage (VoskMsg.result strHello) (stopListening bothReadyState)).text =
          (stopListening bothReadyState).text ∧
        (handleVoskMessage (VoskMsg.result strHello) (stopListening bothReadyState)).interimText =
          (stopListening bothReadyState).interimText) := by
  decide


/-- C4 (amended): `stopListening` stops the capture (isListening false,
accurate buffer cleared) but does not gate the worker message handlers:
a result delivered after stop updates the display state by the same merge
rules as while listening. -/
theorem c4_late_results_still_merge (s : HybridState) (t : String)
    (h1 : t.data ≠ []) (h2 : (trimStr t).data ≠ []) :
    (stopListening s).isListening = false ∧
      (handleVoskMessage (VoskMsg.result t) (stopListening s)).text =
        mergeVosk s.text (trimStr t) ∧
      (handleVoskMessage (VoskMsg.result t) (stopListening s)).interimText = emptyString ∧
      (handleWhisperMessage (WhisperMsg.result t) (stopListening s)).text =
        mergeWhisper s.text (trimStr t) := by
  refine ⟨rfl, ?_, ?_, ?_⟩
  · simp only [handleVoskMessage, if_pos h1, if_pos (List.length_pos.mpr h2)]
    rfl
  · simp only [handleVoskMessage, if_pos h1, if_pos (List.length_pos.mpr h2)]
  · simp only [handleWhisperMessage, if_pos h1, if_pos (List.length_pos.mpr h2)]
    rfl


theorem c4_witness :
    (stopListening bothReadyState).isListening = false ∧
      (handleVoskMessage (VoskMsg.result strHello) (stopListening bothReadyState)).text =
        mergeVosk bothReadyState.text (trimStr strHello) ∧
      (handleVoskMessage (VoskMsg.result strHello) (stopListening bothReadyState)).interimText =
        emptyString ∧
      (handleWhisperMessage (WhisperMsg.result strHello) (stopListening bothReadyState)).text =
        mergeWhisper bothReadyState.text (trimStr strHello) :=
  c4_late_results_still_merge bothReadyState strHello (by decide) (by decide)


/-- C7: when the Whisper engine errors while Vosk is ready, the derived
readiness is Degraded (not Failed): model loading completes, no error is
set (the whisper error branch deliberately leaves `error` alone), Vosk
results and partials still update the committed and interim text, and the
"both engines failed" error can only ever be set when both engines are in
the error state. -/
theorem c7_degraded_mode (s : HybridState) (e t : String)
    (hv : s.engineStatus.vosk = EngineState.ready)
    (he : s.error = none)
    (h1 : t.data ≠ []) (h2 : (trimStr t).data ≠ []) :
    deriveOverall (handleWhisperMessage (WhisperMsg.errorMsg e) s).engineStatus =
        Overall.degraded ∧
      (handleWhisperMessage (WhisperMsg.errorMsg e) s).isModelLoading = false ∧
      (handleWhisperMessage (WhisperMsg.errorMsg e) s).error = none ∧
      (handleVoskMessage (VoskMsg.result t)
          (handleWhisperMessage (WhisperMsg.errorMsg e) s)).text =
        mergeVosk s.text (trimStr t) ∧
      (handleVoskMessage (VoskMsg.interim t)
          (handleWhisperMessage (WhisperMsg.errorMsg e) s)).interimText = trimStr t ∧
      (∀ u : HybridState, u.error = none → (applyStatusEffect u).error ≠ none →
        u.engineStatus.vosk = EngineState.errored ∧
          u.engineStatus.whisper = EngineState.errored) := by
  have key : handleWhisperMessage (WhisperMsg.errorMsg e) s =
      {s with engineStatus := EnginePair.mk s.engineStatus.vosk EngineState.errored,
              isModelLoading := false} := by
    simp only [handleWhisperMessage, applyStatusEffect]
    rw [if_neg (by rintro ⟨-, hw⟩; simp at hw)]
    rw [if_pos ⟨Or.inl (by simpa using hv), by simp [hv], by simp⟩]
  refine ⟨?_, ?_, ?_, ?_, ?_, ?_⟩
  · rw [key]
    show deriveOverall (EnginePair.mk s.engineStatus.vosk EngineState.errored) = Overall.degraded
    rw [hv]
    decide
  · rw [key]
  · rw [key]
    exact he
  · rw [key]
    simp only [handleVoskMessage, if_pos h1, if_pos (List.length_pos.mpr h2)]
  · rw [key]
    simp only [handleVoskMessage, if_pos h1, if_pos (List.length_pos.mpr h2)]
  · intro u hu0 hu1
    rw [applyStatusEffect] at hu1
    split at hu1
    · exact absurd rfl hu1
    · split at hu1
      · exact absurd hu0 hu1
      · split at hu1
        · next hcond =>
            obtain ⟨⟨hvl, hwl⟩, hnr⟩ := hcond
            constructor
            · cases hx : u.engineStatus.vosk
              · exact absurd hx hvl
              · exact absurd (Or.inl hx) hnr
              · rfl
            · cases hx : u.engineStatus.whisper
              · exact absurd hx hwl
              · exact absurd (Or.inr hx) hnr
              · rfl
        · exact absurd hu0 hu1


theorem c7_witness :
    deriveOverall (handleWhisperMessage (WhisperMsg.errorMsg strHello)
          bothReadyState).engineStatus = Overall.degraded ∧
      (handleWhisperMessage (WhisperMsg.errorMsg strHello) bothReadyState).isModelLoading =
        false ∧
      (handleWhisperMessage (WhisperMsg.errorMsg strHello) bothReadyState).error = none ∧
      (handleVoskMessage (VoskMsg.result strNice1)
          (handleWhisperMessage (WhisperMsg.errorMsg strHello) bothReadyState)).text =
        mergeVosk bothReadyState.text (trimStr strNice1) ∧
      (handleVoskMessage (VoskMsg.interim strNice1)
          (handleWhisperMessage (WhisperMsg.errorMsg strHello) bothReadyState)).interimText =
        trimStr strNice1 ∧
      (∀ u : HybridState, u.error = none → (applyStatusEffect u).error ≠ none →
        u.engineStatus.vosk = EngineState.errored ∧
          u.engineStatus.whisper = EngineState.errored) :=
  c7_degraded_mode bothReadyState strHello strNice1 rfl rfl (by decide) (by decide)


/-- C8 counterexample: reload does not reset the display state — the
committed text survives `reloadModel` (and so does the interim caption). -/
theorem c8_counterexample :
    ¬ ((reloadModel {bothReadyState with text := strHello}).text = emptyString ∧
        (reloadModel {bothReadyState with text := strHello}).interimText = emptyString ∧
        (reloadModel {bothReadyState with text := strHello}).engineStatus =
          EnginePair.mk EngineState.loading EngineState.loading) := by
  decide


/-- C8 (amended): `reloadModel` stops listening, clears the accurate-path
buffer and pending timer, restarts both engines from Loading with the
error cleared and the model-loading flag set, and bumps `retryCount`
(re-creating the workers) — but it leaves `text` and `interimText` (and
the rest of the state) untouched. -/
theorem c8_reload_behavior (s : HybridState) :
    reloadModel s =
      {s with isListening := false, whisperBuf := [], whisperLen := 0,
              silencePending := false, isModelLoading := true, error := none,
              engineStatus := EnginePair.mk EngineState.loading EngineState.loading,
              retryCount := s.retryCount + 1} := rfl


lemma toLower_not_upper (c : Char) :
    ¬(65 ≤ (Char.toLower c).toNat ∧ (Char.toLower c).toNat ≤ 90) := by
  rw [Char.toLower]
  split
  · next h =>
      have hval : (Char.ofNat (Char.toNat c + 32)).toNat = Char.toNat c + 32 := by
        rw [Char.ofNat, dif_pos (Or.inl (by omega) : (Char.toNat c + 32).isValidChar)]
        rfl
      rw [hval]
      omega
  · next h => exact h


lemma splitSp_chars : ∀ (l w : List Char), w ∈ splitSp l → ∀ c ∈ w, c ∈ l := by
  intro l
  induction l with
  | nil =>
      intro w hw c hc
      simp [splitSp] at hw
      subst hw
      cases hc
  | cons b rest ih =>
      intro w hw c hc
      rw [splitSp] at hw
      split at hw
      · rcases List.mem_cons.mp hw with rfl | hw2
        · cases hc
        · exact List.mem_cons_of_mem b (ih w hw2 c hc)
      · split at hw
        · next hsp =>
            rcases List.mem_cons.mp hw with rfl | hw2
            · rw [List.mem_singleton] at hc
              rw [hc]
              exact List.mem_cons_self b rest
            · cases hw2
        · next w2 ws2 hsp =>
            rcases List.mem_cons.mp hw with rfl | hw2
            · rcases List.mem_cons.mp hc with rfl | hc2
              · exact List.mem_cons_self c rest
              · have hmem : w2 ∈ splitSp rest := by
                  rw [hsp]
                  exact List.mem_cons_self w2 ws2
                exact List.mem_cons_of_mem b (ih w2 hmem c hc2)
            · have hmem : w ∈ splitSp rest := by
                rw [hsp]
                exact List.mem_cons_of_mem w2 hw2
              exact List.mem_cons_of_mem b (ih w hmem c hc)


lemma joinChars_chars : ∀ (ws : List (List Char)) (c : Char),
    c ∈ joinChars ws → c = ' ' ∨ ∃ w ∈ ws, c ∈ w := by
  intro ws
  induction ws with
  | nil => intro c hc; cases hc
  | cons w ws2 ih =>
      intro c hc
      cases ws2 with
      | nil =>
          right
          exact ⟨w, List.mem_cons_self w [], hc⟩
      | cons w2 ws3 =>
          rw [show joinChars (w :: w2 :: ws3) = w ++ ' ' :: joinChars (w2 :: ws3) from rfl] at hc
          rcases List.mem_append.mp hc with h1 | h1
          · right
            exact ⟨w, List.mem_cons_self w (w2 :: ws3), h1⟩
          · rcases List.mem_cons.mp h1 with rfl | h2
            · left
              rfl
            · rcases ih c h2 with h3 | ⟨w3, hw3, hc3⟩
              · left
                exact h3
              · right
                exact ⟨w3, List.mem_cons_of_mem w hw3, hc3⟩


/-- C10: when the Accurate merge keeps the words after the matched overlap
word, the re-appended tail is taken from the lower-cased copy of the
previous committed text: the merge result is the Whisper text followed by
that tail, and the tail contains no uppercase letter, whatever the original
capitalization was. -/
theorem c10_accurate_merge_lowercases_tail (prev clean : String)
    (hne : prev.data ≠ [])
    (hidx : overlapIdxOf prev clean ≠ -1)
    (hlt : overlapIdxOf prev clean < ((prevWordsOf prev).length : ℤ) - 1) :
    mergeWhisper prev clean = clean ++ spaceString ++ whisperTailOf prev clean ∧
      noUpperStr (whisperTailOf prev clean) := by
  constructor
  · rw [mergeWhisper, if_neg hne, if_pos ⟨hidx, hlt⟩]
  · intro c hc
    replace hc : c ∈ joinChars
        (((prevWordsOf prev).drop ((overlapIdxOf prev clean + 1).toNat)).map String.data) := hc
    rcases joinChars_chars _ c hc with rfl | ⟨w, hw, hcw⟩
    · decide
    · rcases List.mem_map.mp hw with ⟨ws0, hws0, rfl⟩
      have hws1 : ws0 ∈ prevWordsOf prev := List.mem_of_mem_drop hws0
      rcases List.mem_map.mp hws1 with ⟨wchars, hwch, rfl⟩
      have hc3 : c ∈ (lowerStr prev).data := splitSp_chars _ wchars hwch c hcw
      rcases List.mem_map.mp hc3 with ⟨c0, -, rfl⟩
      exact toLower_not_upper c0


theorem c10_witness :
    overlapIdxOf strWhetherCaps strNice1 ≠ -1 ∧
      overlapIdxOf strWhetherCaps strNice1 < ((prevWordsOf strWhetherCaps).length : ℤ) - 1 ∧
      (mergeWhisper strWhetherCaps strNice1 =
          strNice1 ++ spaceString ++ whisperTailOf strWhetherCaps strNice1 ∧
        noUpperStr (whisperTailOf strWhetherCaps strNice1)) :=
  ⟨by decide, by decide,
    c10_accurate_merge_lowercases_tail strWhetherCaps strNice1 (by decide) (by decide) (by decide)⟩

